import Mathlib

/-!
Verification development for the MCP-Elevenlab-Scribe-ASR server.

The Lean definitions below are a shallow embedding of the Python sources:
  * `elevenlabs_scribe_mcp_server/mcp/types.py`    — message/config data model
  * `elevenlabs_scribe_mcp_server/mcp/protocol.py` — `MCPSession`, `MCPProtocolHandler`
  * `elevenlabs_scribe_mcp_server/mcp/elevenlabs.py` — `ElevenLabsProvider.process_stream`,
    `ElevenLabsTranscriptionService.start_session`

Modelling conventions:
  * Python `dict` registries become association lists with first-match
    lookup; `dictSet` replaces in place (as Python assignment to an existing
    key does) and `dictDel` removes the first matching key.
  * `asyncio.Queue` contents become plain lists (FIFO order); queue object
    identity, which matters for `close()`'s queue replacement, is modelled
    separately for the generator analysis (`GConfig` below).
  * `time.time()` becomes an explicit natural-number clock argument `now`;
    a session's `start_time` is the clock value at construction.
  * `str(uuid.uuid4())` becomes an explicit `fresh` string argument: the
    constructor uses it exactly when the given session id is falsy (`""`).
  * Python exceptions become `Except String`; the text carried is the
    exception text.  Handlers return the (possibly mutated) state together
    with the `Except` outcome, so that a mutation performed before a raise
    would persist, exactly as it does on a Python object.
  * JSON-ish payload values (`Dict[str, Any]`) become the inductive `Value`.
    Pydantic-v1 validation of `AudioFormat(**d)` / `TranscriptionConfig(**d)`
    is modelled as: a non-mapping argument raises; missing fields take the
    declared defaults; unknown fields are ignored; a field of the wrong
    shape raises.  (Numeric-string coercion is not modelled; no claim
    depends on it.)
  * `max_context_length` is `Optional[int]` in the source; the embedding
    uses `Option Nat`, covering every configuration the claims quantify
    over (the `if self.config.max_context_length:` truthiness test makes
    both `none` and `some 0` skip trimming).
-/

namespace Scribe

/-- Payload values: a small JSON-like universe for `Dict[str, Any]` payloads. -/
inductive Value where
  | vstr (s : String)
  | vint (n : Nat)
  | vbool (b : Bool)
  | vbytes (data : List Nat)
  | vnone
  | vdict (fields : List (String × Value))
deriving Repr

/-- Payload dictionaries as association lists of string keys. -/
abbrev Payload := List (String × Value)

/-- Lookup with Python-dict semantics: first matching key. -/
def dictGet {α : Type} : List (String × α) → String → Option α
  | [], _ => none
  | (k', v) :: rest, k => if k' = k then some v else dictGet rest k

/-- Assignment with Python-dict semantics: replace an existing key in place,
otherwise append at the end. -/
def dictSet {α : Type} : List (String × α) → String → α → List (String × α)
  | [], k, v => [(k, v)]
  | (k', v') :: rest, k, v =>
    if k' = k then (k, v) :: rest else (k', v') :: dictSet rest k v

/-- Deletion with Python-dict semantics (`del d[k]`); total here because the
source only deletes a key it has just looked up successfully. -/
def dictDel {α : Type} : List (String × α) → String → List (String × α)
  | [], _ => []
  | (k', v') :: rest, k => if k' = k then rest else (k', v') :: dictDel rest k

/-- MessageType from `types.py`: the enumerated protocol message kinds. -/
inductive MessageType where
  | init
  | start
  | audio
  | transcription
  | error
  | stop
  | done
deriving DecidableEq, Repr

/-- String value of each `MessageType` member, as rendered into the
"Unsupported message type" exception text. -/
def MessageType.str : MessageType → String
  | .init => "init"
  | .start => "start"
  | .audio => "audio"
  | .transcription => "transcription"
  | .error => "error"
  | .stop => "stop"
  | .done => "done"

/-- AudioFormat from `types.py` with its field defaults. -/
structure AudioFormat where
  sample_rate : Nat := 16000
  channels : Nat := 1
  sample_width : Nat := 2
  encoding : String := "pcm"
deriving DecidableEq, Repr

/-- TranscriptionConfig from `types.py` with its field defaults. -/
structure TranscriptionConfig where
  model_id : String := "scribe_v1"
  language : Option String := none
  max_context_length : Option Nat := some 1000
  detect_language : Bool := true
  detect_events : Bool := true
deriving DecidableEq, Repr

/-- Word from `types.py`. -/
structure Word where
  text : String
  startTime : Nat
  endTime : Nat
  type : String := "speech"
deriving DecidableEq, Repr

/-- TranscriptionResult from `types.py`. -/
structure TranscriptionResult where
  text : String
  language_code : Option String := none
  language_probability : Option Nat := none
  words : List Word := []
deriving DecidableEq, Repr

/-- MCPMessage from `types.py`: the protocol envelope. -/
structure MCPMessage where
  type : MessageType
  session_id : String
  sequence : Nat
  timestamp : Nat
  payload : Option Payload := none
deriving Repr

/-- Validation of `AudioFormat(**v)` (pydantic v1): a non-mapping raises;
each declared field defaults when absent and raises on a wrong-shaped value;
unknown keys are ignored. -/
def AudioFormat.validate : Value → Except String AudioFormat
  | .vdict fields => do
    let sample_rate ← match dictGet fields "sample_rate" with
      | none => pure 16000
      | some (.vint n) => pure n
      | some _ => throw "validation error for AudioFormat field sample_rate"
    let channels ← match dictGet fields "channels" with
      | none => pure 1
      | some (.vint n) => pure n
      | some _ => throw "validation error for AudioFormat field channels"
    let sample_width ← match dictGet fields "sample_width" with
      | none => pure 2
      | some (.vint n) => pure n
      | some _ => throw "validation error for AudioFormat field sample_width"
    let encoding ← match dictGet fields "encoding" with
      | none => pure "pcm"
      | some (.vstr s) => pure s
      | some _ => throw "validation error for AudioFormat field encoding"
    pure ⟨sample_rate, channels, sample_width, encoding⟩
  | _ => throw "argument of type AudioFormat is not a mapping"

/-- Validation of `TranscriptionConfig(**v)` (pydantic v1), as for
`AudioFormat.validate`. -/
def TranscriptionConfig.validate : Value → Except String TranscriptionConfig
  | .vdict fields => do
    let model_id ← match dictGet fields "model_id" with
      | none => pure "scribe_v1"
      | some (.vstr s) => pure s
      | some _ => throw "validation error for TranscriptionConfig field model_id"
    let language ← match dictGet fields "language" with
      | none => pure (none : Option String)
      | some (.vstr s) => pure (some s)
      | some .vnone => pure none
      | some _ => throw "validation error for TranscriptionConfig field language"
    let max_context_length ← match dictGet fields "max_context_length" with
      | none => pure (some 1000 : Option Nat)
      | some (.vint n) => pure (some n)
      | some .vnone => pure none
      | some _ => throw "validation error for TranscriptionConfig field max_context_length"
    let detect_language ← match dictGet fields "detect_language" with
      | none => pure true
      | some (.vbool b) => pure b
      | some _ => throw "validation error for TranscriptionConfig field detect_language"
    let detect_events ← match dictGet fields "detect_events" with
      | none => pure true
      | some (.vbool b) => pure b
      | some _ => throw "validation error for TranscriptionConfig field detect_events"
    pure ⟨model_id, language, max_context_length, detect_language, detect_events⟩
  | _ => throw "argument of type TranscriptionConfig is not a mapping"

/-- MCPSession state from `protocol.py` (queue contents as lists). -/
structure MCPSession where
  session_id : String
  audio_format : AudioFormat
  config : TranscriptionConfig
  sequence : Nat
  start_time : Nat
  context_buffer : List String
  is_active : Bool
  audio_queue : List Value
  result_queue : List TranscriptionResult
deriving Repr

/-- MCPSession.__init__: `session_id or str(uuid.uuid4())` uses the fresh
uuid exactly when the given id is falsy; sequence starts at 0, context is
empty, the session is active, both queues are empty. -/
def MCPSession.make (session_id fresh : String) (audio_format : AudioFormat)
    (config : TranscriptionConfig) (now : Nat) : MCPSession :=
  { session_id := if session_id = "" then fresh else session_id
    audio_format := audio_format
    config := config
    sequence := 0
    start_time := now
    context_buffer := []
    is_active := true
    audio_queue := []
    result_queue := [] }

/-- MCPSession.create_message: stamps the session id, the current sequence
number and the elapsed time, then increments the counter. -/
def MCPSession.create_message (s : MCPSession) (now : Nat) (type : MessageType)
    (payload : Option Payload) : MCPMessage × MCPSession :=
  (⟨type, s.session_id, s.sequence, now - s.start_time, payload⟩,
   { s with sequence := s.sequence + 1 })

/-- MCPSession.push_audio: enqueue a raw payload value. -/
def MCPSession.push_audio (s : MCPSession) (v : Value) : MCPSession :=
  { s with audio_queue := s.audio_queue ++ [v] }

/-- MCPSession.push_result: enqueue a transcription result. -/
def MCPSession.push_result (s : MCPSession) (r : TranscriptionResult) : MCPSession :=
  { s with result_queue := s.result_queue ++ [r] }

/-- Counting helper for `tokenCount`: number of maximal non-whitespace runs
in the character list, with a flag recording whether a run is underway. -/
def countTokensAux : List Char → Bool → Nat
  | [], _ => 0
  | c :: cs, inWord =>
    if c.isWhitespace then countTokensAux cs false
    else (if inWord then 0 else 1) + countTokensAux cs true

/-- Token count of one buffered string: `len(t.split())`.  Python's
no-argument `split` returns the maximal whitespace-free non-empty pieces,
so its length is the number of maximal non-whitespace runs. -/
def tokenCount (t : String) : Nat :=
  countTokensAux t.toList false

/-- Total token count of the context buffer:
`sum(len(t.split()) for t in buffer)`. -/
def totalTokens (buf : List String) : Nat :=
  (buf.map tokenCount).sum

/-- Trimming loop of `MCPSession.update_context`: while the total token
count exceeds the limit, pop whole entries from the front. -/
def trimContext (maxLen : Nat) : List String → List String
  | [] => []
  | t :: rest =>
    if maxLen < totalTokens (t :: rest) then trimContext maxLen rest
    else t :: rest

/-- MCPSession.update_context on the buffer: append, then—only when
`max_context_length` is truthy (neither `None` nor `0`)—run the trimming
loop. -/
def updateContextBuffer (config : TranscriptionConfig) (buf : List String)
    (text : String) : List String :=
  let buf' := buf ++ [text]
  match config.max_context_length with
  | none => buf'
  | some 0 => buf'
  | some m => trimContext m buf'

/-- MCPSession.update_context at the session level. -/
def MCPSession.update_context (s : MCPSession) (text : String) : MCPSession :=
  { s with context_buffer := updateContextBuffer s.config s.context_buffer text }

/-- MCPSession.get_context: buffered strings joined by single spaces. -/
def MCPSession.get_context (s : MCPSession) : String :=
  String.intercalate " " s.context_buffer

/-- MCPSession.close: clear the active flag and replace both queues with
fresh empty ones. -/
def MCPSession.close (s : MCPSession) : MCPSession :=
  { s with is_active := false, audio_queue := [], result_queue := [] }

/-- MCPProtocolHandler state: the registry of live sessions keyed by id. -/
structure MCPProtocolHandler where
  sessions : List (String × MCPSession)
deriving Repr

/-- MCPProtocolHandler._handle_init: validate the payload's audio format and
config (evaluated while building the `MCPSession(...)` arguments, so a
validation failure raises before the registry is touched), register the new
session under its id, reply `{status: "ready"}`.  The reply's sequence stamp
increments the registered session's counter, which `dictSet` writes back, as
Python's in-place mutation of the registered object does. -/
def handleInit (now : Nat) (fresh : String) (st : MCPProtocolHandler)
    (msg : MCPMessage) : MCPProtocolHandler × Except String MCPMessage :=
  let payload := msg.payload.getD []
  match AudioFormat.validate ((dictGet payload "audio_format").getD (.vdict [])) with
  | .error e => (st, .error e)
  | .ok fmt =>
    match TranscriptionConfig.validate ((dictGet payload "config").getD (.vdict [])) with
    | .error e => (st, .error e)
    | .ok cfg =>
      let session := MCPSession.make msg.session_id fresh fmt cfg now
      let (reply, session') := session.create_message now .init
        (some [("status", .vstr "ready")])
      (⟨dictSet st.sessions session'.session_id session'⟩, .ok reply)

/-- MCPProtocolHandler._handle_start: look the session up (raising "Session
not found" when absent) and reply `{status: "started"}`. -/
def handleStart (now : Nat) (st : MCPProtocolHandler)
    (msg : MCPMessage) : MCPProtocolHandler × Except String MCPMessage :=
  match dictGet st.sessions msg.session_id with
  | none => (st, .error ("Session not found: " ++ msg.session_id))
  | some session =>
    let (reply, session') := session.create_message now .start
      (some [("status", .vstr "started")])
    (⟨dictSet st.sessions msg.session_id session'⟩, .ok reply)

/-- MCPProtocolHandler._handle_audio: look the session up, require a truthy
payload holding a "data" key (both checks raise before any mutation), push
the raw value and reply `{status: "received"}`. -/
def handleAudio (now : Nat) (st : MCPProtocolHandler)
    (msg : MCPMessage) : MCPProtocolHandler × Except String MCPMessage :=
  match dictGet st.sessions msg.session_id with
  | none => (st, .error ("Session not found: " ++ msg.session_id))
  | some session =>
    match dictGet (msg.payload.getD []) "data" with
    | none => (st, .error "Audio data missing in payload")
    | some v =>
      let (reply, session') := (session.push_audio v).create_message now .audio
        (some [("status", .vstr "received")])
      (⟨dictSet st.sessions msg.session_id session'⟩, .ok reply)

/-- MCPProtocolHandler._handle_stop: look the session up, close it, delete
it from the registry, and reply `{status: "stopped"}` (the reply is stamped
by the now-unregistered session object). -/
def handleStop (now : Nat) (st : MCPProtocolHandler)
    (msg : MCPMessage) : MCPProtocolHandler × Except String MCPMessage :=
  match dictGet st.sessions msg.session_id with
  | none => (st, .error ("Session not found: " ++ msg.session_id))
  | some session =>
    let (reply, _) := session.close.create_message now .stop
      (some [("status", .vstr "stopped")])
    (⟨dictDel st.sessions msg.session_id⟩, .ok reply)

/-- Dispatch switch of `MCPProtocolHandler.handle_message`'s `try` body. -/
def dispatch (now : Nat) (fresh : String) (st : MCPProtocolHandler)
    (msg : MCPMessage) : MCPProtocolHandler × Except String MCPMessage :=
  match msg.type with
  | .init => handleInit now fresh st msg
  | .start => handleStart now st msg
  | .audio => handleAudio now st msg
  | .stop => handleStop now st msg
  | t => (st, .error ("Unsupported message type: " ++ t.str))

/-- Error reply built by `handle_message`'s `except` clause: an Error-kind
message with the incoming message's session id and sequence, the absolute
clock value as timestamp, and an `MCPError` payload with code
"protocol_error" and the exception text. -/
def protocolErrorReply (now : Nat) (msg : MCPMessage) (e : String) : MCPMessage :=
  ⟨.error, msg.session_id, msg.sequence, now,
   some [("code", .vstr "protocol_error"), ("message", .vstr e)]⟩

/-- MCPProtocolHandler.handle_message: run the dispatch switch and convert
any raised failure into an Error reply, keeping whatever state the dispatch
left behind. -/
def handle_message (now : Nat) (fresh : String) (st : MCPProtocolHandler)
    (msg : MCPMessage) : MCPProtocolHandler × MCPMessage :=
  match dispatch now fresh st msg with
  | (st', .ok reply) => (st', reply)
  | (st', .error e) => (st', protocolErrorReply now msg e)

/-! ### ElevenLabsProvider.process_stream (`elevenlabs.py`)

The per-chunk loop body calls `_convert_to_wav` and then `_transcribe`,
both of which perform I/O; they are abstracted as two oracle functions to
`Except String`, standing for the WAV bytes produced or the exception
raised, and the API's parsed result or the exception raised.  The loop
consumes the session's audio sequence; the embedding runs it over the list
of chunks that the sequence yields, threading the context buffer and
collecting the yielded results in order. -/

/-- Per-chunk loop of `ElevenLabsProvider.process_stream`: a falsy (empty)
chunk is skipped; otherwise the `try` body converts, transcribes, appends a
non-empty result text to the context and yields the result, and the
`except` clause logs and continues with the next chunk.  Returns the final
context buffer and the yielded results in order. -/
def process_stream (convert : List Nat → Except String (List Nat))
    (transcribe : List Nat → Except String TranscriptionResult)
    (config : TranscriptionConfig) :
    List (List Nat) → List String → List String × List TranscriptionResult
  | [], ctx => (ctx, [])
  | chunk :: rest, ctx =>
    if chunk = [] then process_stream convert transcribe config rest ctx
    else
      match convert chunk with
      | .error _ => process_stream convert transcribe config rest ctx
      | .ok wav =>
        match transcribe wav with
        | .error _ => process_stream convert transcribe config rest ctx
        | .ok result =>
          let ctx' := if result.text ≠ "" then updateContextBuffer config ctx result.text
                      else ctx
          let (ctxF, results) := process_stream convert transcribe config rest ctx'
          (ctxF, result :: results)

/-- Outcome of one chunk's convert-then-transcribe round trip, `none` when
either stage raises. -/
def chunkOutcome (convert : List Nat → Except String (List Nat))
    (transcribe : List Nat → Except String TranscriptionResult)
    (chunk : List Nat) : Option TranscriptionResult :=
  match convert chunk with
  | .error _ => none
  | .ok wav =>
    match transcribe wav with
    | .error _ => none
    | .ok result => some result

/-! ### ElevenLabsTranscriptionService (`elevenlabs.py`)

`asyncio.create_task` is modelled by a task-id counter: each successful
`start_session` allocates the next id and records it in the `_tasks`
dictionary. -/

/-- Task registry of `ElevenLabsTranscriptionService`. -/
structure ElevenLabsTranscriptionService where
  tasks : List (String × Nat)
  next_task : Nat
deriving Repr

/-- ElevenLabsTranscriptionService.start_session: raise "Session already
running" when a task is registered for the id, otherwise spawn a task and
register it. -/
def start_session (svc : ElevenLabsTranscriptionService) (session_id : String) :
    ElevenLabsTranscriptionService × Except String Unit :=
  match dictGet svc.tasks session_id with
  | some _ => (svc, .error ("Session already running: " ++ session_id))
  | none =>
    (⟨dictSet svc.tasks session_id svc.next_task, svc.next_task + 1⟩, .ok ())

/-- ElevenLabsTranscriptionService.stop_session: pop the task if present and
cancel it (cancellation is swallowed). -/
def stop_session (svc : ElevenLabsTranscriptionService) (session_id : String) :
    ElevenLabsTranscriptionService :=
  ⟨dictDel svc.tasks session_id, svc.next_task⟩

/-! ### Generator/queue-identity model for `get_audio` and `close`

`MCPSession.get_audio` is an async generator:

    while self.is_active:
        audio_data = await self._audio_queue.get()
        yield audio_data

`close()` sets `is_active = False` and rebinds `self._audio_queue` to a
fresh `asyncio.Queue()`.  Whether a consumer observes termination depends
on queue object identity: a task suspended in `get()` waits on the queue
object it read from the attribute, while later `put`s go to the rebound
object.  The model names queue objects by numeric ids: `qstore` gives each
object's contents, `next_qid` the next unallocated id (unallocated ids hold
`[]`), `audio_qid` the session's current `_audio_queue` binding. -/

/-- Consumer position in the `get_audio` loop: about to test `is_active`,
suspended in `get()` on a particular queue object, or terminated. -/
inductive ConsumerState where
  | checking
  | waiting (qid : Nat)
  | done
deriving DecidableEq, Repr

/-- Configuration of one session, its audio-queue objects, and one
`get_audio` consumer; `yielded` records the chunks the generator has
produced. -/
structure GConfig where
  is_active : Bool
  audio_qid : Nat
  qstore : Nat → List Value
  next_qid : Nat
  consumer : ConsumerState
  yielded : List Value

/-- Small-step transitions of the session/consumer system: the consumer's
loop steps, a producer's `push_audio` (which `put`s to the currently bound
queue object), and `close()` (which clears the flag and rebinds a fresh
queue object). -/
inductive GStep : GConfig → GConfig → Prop where
  | check_inactive (c : GConfig) :
      c.consumer = .checking → c.is_active = false →
      GStep c { c with consumer := .done }
  | enter_get (c : GConfig) :
      c.consumer = .checking → c.is_active = true →
      GStep c { c with consumer := .waiting c.audio_qid }
  | resume_get (c : GConfig) (q : Nat) (v : Value) (rest : List Value) :
      c.consumer = .waiting q → c.qstore q = v :: rest →
      GStep c { c with consumer := .checking,
                       qstore := fun q' => if q' = q then rest else c.qstore q',
                       yielded := c.yielded ++ [v] }
  | push (c : GConfig) (v : Value) :
      GStep c { c with qstore := fun q' => if q' = c.audio_qid
                                           then c.qstore c.audio_qid ++ [v]
                                           else c.qstore q' }
  | close_session (c : GConfig) :
      GStep c { c with is_active := false,
                       audio_qid := c.next_qid,
                       next_qid := c.next_qid + 1 }

/-- Reflexive-transitive closure of `GStep`: any finite run of the system. -/
inductive GSteps : GConfig → GConfig → Prop where
  | refl (c : GConfig) : GSteps c c
  | tail (a b c : GConfig) : GSteps a b → GStep b c → GSteps a c

/-- Initial configuration: an active session bound to queue object 0
(empty), one consumer about to test the flag, nothing yielded yet. -/
def gInit : GConfig :=
  { is_active := true
    audio_qid := 0
    qstore := fun _ => []
    next_qid := 1
    consumer := .checking
    yielded := [] }

/-- Configuration after the consumer suspended in `get()` on queue 0 and
`close()` then ran: flag false, session rebound to fresh queue 1, consumer
still waiting on orphaned queue 0. -/
def gStuck : GConfig :=
  { is_active := false
    audio_qid := 1
    qstore := fun _ => []
    next_qid := 2
    consumer := .waiting 0
    yielded := [] }

/-! ### Claim-level run harnesses -/

/-- Sequence numbers stamped by a run of `create_message` calls on one
session, threading the session state through the calls. -/
def emitSeqs (now : Nat) : MCPSession → List (MessageType × Option Payload) → List Nat
  | _, [] => []
  | s, (t, p) :: rest =>
    let (m, s') := s.create_message now t p
    m.sequence :: emitSeqs now s' rest

/-- Feeding a list of messages through `handle_message`, threading the
handler state and collecting the replies in order. -/
def runMessages (now : Nat) (fresh : String) :
    MCPProtocolHandler → List MCPMessage → MCPProtocolHandler × List MCPMessage
  | st, [] => (st, [])
  | st, m :: ms =>
    let (st', r) := handle_message now fresh st m
    let (stF, rs) := runMessages now fresh st' ms
    (stF, r :: rs)

/-- Message script Init → Start → Audio × n → Stop addressed to one session
id (the caller-side sequence and timestamp fields are ignored by the
handler and set to 0). -/
def lifecycleScript (sid : String) (n : Nat) : List MCPMessage :=
  [⟨.init, sid, 0, 0, none⟩, ⟨.start, sid, 0, 0, none⟩]
    ++ List.replicate n ⟨.audio, sid, 0, 0, some [("data", .vbytes [0])]⟩
    ++ [⟨.stop, sid, 0, 0, none⟩]

/-! ## Helper lemmas -/

theorem totalTokens_nil : totalTokens [] = 0 := rfl

theorem totalTokens_cons (t : String) (l : List String) :
    totalTokens (t :: l) = tokenCount t + totalTokens l := by
  simp [totalTokens]

theorem totalTokens_append (l₁ l₂ : List String) :
    totalTokens (l₁ ++ l₂) = totalTokens l₁ + totalTokens l₂ := by
  simp [totalTokens]

theorem trimContext_totalTokens_le (m : Nat) (l : List String) :
    totalTokens (trimContext m l) ≤ m := by
  induction l with
  | nil => simp [trimContext, totalTokens_nil]
  | cons t rest ih =>
    rw [trimContext]
    split
    · exact ih
    · omega

theorem trimContext_drop (m : Nat) (l : List String) :
    ∃ k, trimContext m l = List.drop k l := by
  induction l with
  | nil => exact ⟨0, rfl⟩
  | cons t rest ih =>
    rw [trimContext]
    split
    · obtain ⟨k, hk⟩ := ih
      exact ⟨k + 1, hk⟩
    · exact ⟨0, rfl⟩

theorem trimContext_oversized (m : Nat) (text : String)
    (h : m < tokenCount text) :
    ∀ l : List String, trimContext m (l ++ [text]) = [] := by
  intro l
  induction l with
  | nil =>
    rw [List.nil_append, trimContext, if_pos]
    · rfl
    · rw [totalTokens_cons, totalTokens_nil]; omega
  | cons x rest ih =>
    rw [List.cons_append, trimContext, if_pos]
    · exact ih
    · rw [totalTokens_cons, totalTokens_append, totalTokens_cons, totalTokens_nil]
      omega

theorem dictGet_dictSet_self {α : Type} (d : List (String × α)) (k : String) (v : α) :
    dictGet (dictSet d k v) k = some v := by
  induction d with
  | nil => simp [dictGet, dictSet]
  | cons p rest ih =>
    obtain ⟨k', v'⟩ := p
    by_cases h : k' = k
    · simp [dictGet, dictSet, h]
    · simp [dictGet, dictSet, h, ih]

theorem dictGet_eq_none_of_not_mem {α : Type} (d : List (String × α)) (k : String)
    (h : k ∉ d.map Prod.fst) : dictGet d k = none := by
  induction d with
  | nil => rfl
  | cons p rest ih =>
    obtain ⟨k', v'⟩ := p
    simp only [List.map_cons, List.mem_cons] at h
    push_neg at h
    rw [dictGet, if_neg fun he => h.1 he.symm]
    exact ih h.2

theorem mem_map_fst_dictSet {α : Type} (d : List (String × α)) (k : String) (v : α)
    (a : String) (h : a ∈ (dictSet d k v).map Prod.fst) :
    a ∈ d.map Prod.fst ∨ a = k := by
  induction d with
  | nil => simp [dictSet] at h; exact Or.inr h
  | cons p rest ih =>
    obtain ⟨k', v'⟩ := p
    by_cases he : k' = k
    · subst he
      rw [dictSet, if_pos rfl] at h
      simp only [List.map_cons, List.mem_cons] at h ⊢
      tauto
    · simp only [dictSet, if_neg he, List.map_cons, List.mem_cons] at h ⊢
      rcases h with h | h
      · exact Or.inl (Or.inl h)
      · rcases ih h with h' | h'
        · exact Or.inl (Or.inr h')
        · exact Or.inr h'

theorem nodup_dictSet {α : Type} (d : List (String × α)) (k : String) (v : α)
    (h : (d.map Prod.fst).Nodup) : ((dictSet d k v).map Prod.fst).Nodup := by
  induction d with
  | nil => simp [dictSet]
  | cons p rest ih =>
    obtain ⟨k', v'⟩ := p
    simp only [List.map_cons, List.nodup_cons] at h
    by_cases he : k' = k
    · subst he
      rw [dictSet, if_pos rfl]
      simp only [List.map_cons, List.nodup_cons]
      exact h
    · simp only [dictSet, if_neg he, List.map_cons, List.nodup_cons]
      refine ⟨fun hmem => ?_, ih h.2⟩
      rcases mem_map_fst_dictSet rest k v k' hmem with h' | h'
      · exact h.1 h'
      · exact he h'

theorem map_fst_dictDel_sublist {α : Type} (d : List (String × α)) (k : String) :
    ((dictDel d k).map Prod.fst).Sublist (d.map Prod.fst) := by
  induction d with
  | nil => simp [dictDel]
  | cons p rest ih =>
    obtain ⟨k', v'⟩ := p
    by_cases he : k' = k
    · simp only [dictDel, if_pos he, List.map_cons]
      exact (List.Sublist.refl _).cons _
    · simp only [dictDel, if_neg he, List.map_cons]
      exact ih.cons₂ k'

theorem nodup_dictDel {α : Type} (d : List (String × α)) (k : String)
    (h : (d.map Prod.fst).Nodup) : ((dictDel d k).map Prod.fst).Nodup :=
  (map_fst_dictDel_sublist d k).nodup h

theorem dictGet_dictDel_self {α : Type} (d : List (String × α)) (k : String)
    (h : (d.map Prod.fst).Nodup) : dictGet (dictDel d k) k = none := by
  induction d with
  | nil => rfl
  | cons p rest ih =>
    obtain ⟨k', v'⟩ := p
    simp only [List.map_cons, List.nodup_cons] at h
    by_cases he : k' = k
    · simp only [dictDel, if_pos he]
      exact dictGet_eq_none_of_not_mem rest k (he ▸ h.1)
    · simp only [dictDel, if_neg he, dictGet, if_neg he]
      exact ih h.2

theorem emitSeqs_eq_range' (now : Nat) (calls : List (MessageType × Option Payload)) :
    ∀ s : MCPSession, emitSeqs now s calls = List.range' s.sequence calls.length := by
  induction calls with
  | nil => intro s; rfl
  | cons c rest ih =>
    intro s
    obtain ⟨t, p⟩ := c
    simp only [emitSeqs, MCPSession.create_message, List.length_cons, List.range']
    exact congrArg _ (ih _)

theorem runMessages_audioStop_seqs (now : Nat) (fresh sid : String) (n : Nat) :
    ∀ sess : MCPSession,
      ((runMessages now fresh ⟨[(sid, sess)]⟩
          (List.replicate n ⟨.audio, sid, 0, 0, some [("data", .vbytes [0])]⟩
            ++ [⟨.stop, sid, 0, 0, none⟩])).2.map fun m => m.sequence)
        = List.range' sess.sequence (n + 1) := by
  induction n with
  | zero =>
    intro sess
    simp [runMessages, handle_message, dispatch, handleStop, dictGet,
      MCPSession.close, MCPSession.create_message, List.range']
  | succ n ih =>
    intro sess
    rw [List.replicate_succ, List.cons_append, runMessages]
    have hstep : handle_message now fresh ⟨[(sid, sess)]⟩
        ⟨.audio, sid, 0, 0, some [("data", .vbytes [0])]⟩
        = (⟨[(sid, { sess with
                      sequence := sess.sequence + 1
                      audio_queue := sess.audio_queue ++ [.vbytes [0]] })]⟩,
           ⟨.audio, sess.session_id, sess.sequence, now - sess.start_time,
            some [("status", .vstr "received")]⟩) := by
      simp [handle_message, dispatch, handleAudio, dictGet, dictSet,
        MCPSession.push_audio, MCPSession.create_message]
    rw [hstep]
    simp only [List.map_cons]
    rw [ih]
    simp [List.range']

/-! ## Claim C1 -/

/-- C1: sequence numbers are assigned by the session itself and strictly
increase: any run of `create_message` calls on a session stamps the
consecutive range starting at the session's counter, and the full
Init → Start → Audio×n → Stop script on a fresh (non-falsy) session id
yields reply sequence numbers 0, 1, ..., n+2, increasing by exactly 1 per
reply. -/
theorem session_sequence_strictly_increasing :
    (∀ (now : Nat) (s : MCPSession) (calls : List (MessageType × Option Payload)),
        emitSeqs now s calls = List.range' s.sequence calls.length) ∧
    (∀ (now : Nat) (fresh sid : String) (n : Nat), sid ≠ "" →
        ((runMessages now fresh ⟨[]⟩ (lifecycleScript sid n)).2.map fun m => m.sequence)
          = List.range (n + 3)) := by
  constructor
  · intro now s calls
    exact emitSeqs_eq_range' now calls s
  · intro now fresh sid n hsid
    have hinit : handle_message now fresh ⟨[]⟩ ⟨.init, sid, 0, 0, none⟩
        = (⟨[(sid, ⟨sid, {}, {}, 1, now, [], true, [], []⟩)]⟩,
           ⟨.init, sid, 0, now - now, some [("status", .vstr "ready")]⟩) := by
      simp [handle_message, dispatch, handleInit, dictGet, dictSet,
        AudioFormat.validate, TranscriptionConfig.validate, pure, Except.pure,
        bind, Except.bind,
        MCPSession.make, if_neg hsid, MCPSession.create_message]
    have hstart : handle_message now fresh ⟨[(sid, ⟨sid, {}, {}, 1, now, [], true, [], []⟩)]⟩
        ⟨.start, sid, 0, 0, none⟩
        = (⟨[(sid, ⟨sid, {}, {}, 2, now, [], true, [], []⟩)]⟩,
           ⟨.start, sid, 1, now - now, some [("status", .vstr "started")]⟩) := by
      simp [handle_message, dispatch, handleStart, dictGet, dictSet,
        MCPSession.create_message]
    rw [lifecycleScript, List.cons_append, List.cons_append]
    simp only [runMessages, hinit, hstart, List.map_cons, List.append_eq,
      List.nil_append]
    rw [runMessages_audioStop_seqs now fresh sid n ⟨sid, {}, {}, 2, now, [], true, [], []⟩]
    rw [List.range_eq_range']
    simp [List.range']

/-- C1 witness: the script with two audio chunks on session id "s1" yields
reply sequence numbers `[0, 1, 2, 3, 4]`. -/
theorem session_sequence_strictly_increasing_witness :
    ((runMessages 7 "f" ⟨[]⟩ (lifecycleScript "s1" 2)).2.map fun m => m.sequence)
      = List.range 5 :=
  session_sequence_strictly_increasing.2 7 "f" "s1" 2 (by decide)

/-! ## Claim C2 -/

/-- C2: `handle_message` never propagates a dispatch failure (in the
embedding it is a total function); whenever the dispatch switch raises —
unknown session id on Start/Audio/Stop, missing "data" field on Audio, an
unsupported message kind, or any other exception text `e` — the handler
returns an Error-kind message whose payload carries code "protocol_error"
and the exception text, addressed to the original message's session id and
sequence. -/
theorem handle_message_error_reply (now : Nat) (fresh : String)
    (st : MCPProtocolHandler) (msg : MCPMessage) :
    (∀ e, (dispatch now fresh st msg).2 = .error e →
        handle_message now fresh st msg
          = ((dispatch now fresh st msg).1, protocolErrorReply now msg e)) ∧
    ((msg.type = .start ∨ msg.type = .audio ∨ msg.type = .stop) →
      dictGet st.sessions msg.session_id = none →
        (handle_message now fresh st msg).2
          = protocolErrorReply now msg ("Session not found: " ++ msg.session_id)) ∧
    (∀ s, msg.type = .audio → dictGet st.sessions msg.session_id = some s →
      dictGet (msg.payload.getD []) "data" = none →
        (handle_message now fresh st msg).2
          = protocolErrorReply now msg "Audio data missing in payload") ∧
    ((msg.type = .transcription ∨ msg.type = .error ∨ msg.type = .done) →
        (handle_message now fresh st msg).2
          = protocolErrorReply now msg ("Unsupported message type: " ++ msg.type.str)) := by
  obtain ⟨t, sid, seqv, ts, pl⟩ := msg
  refine ⟨?_, ?_, ?_, ?_⟩
  · intro e he
    rcases hd : dispatch now fresh st ⟨t, sid, seqv, ts, pl⟩ with ⟨st', r⟩
    rw [hd] at he
    cases r with
    | ok v => simp at he
    | error e' =>
      simp only at he
      cases he
      simp [handle_message, hd]
  · intro htype hnone
    rcases htype with h | h | h <;> cases h <;>
      simp [handle_message, dispatch, handleStart, handleAudio, handleStop, hnone]
  · intro s htype hsome hdata
    cases htype
    simp [handle_message, dispatch, handleAudio, hsome, hdata]
  · intro htype
    rcases htype with h | h | h <;> cases h <;>
      simp [handle_message, dispatch, MessageType.str]

/-- C2 witness: a Stop message for the unknown id "x" against an empty
registry yields the "Session not found" protocol-error reply. -/
theorem handle_message_error_reply_witness :
    (handle_message 7 "f" ⟨[]⟩ ⟨.stop, "x", 4, 9, none⟩).2
      = protocolErrorReply 7 ⟨.stop, "x", 4, 9, none⟩ ("Session not found: " ++ "x") :=
  (handle_message_error_reply 7 "f" ⟨[]⟩ ⟨.stop, "x", 4, 9, none⟩).2.1
    (Or.inr (Or.inr rfl)) rfl

/-! ## Claim C3 -/

/-- C3: the registry maps each id to at most one live session (handling
any message preserves distinctness of registry keys); handling Stop for a
registered id removes that id from the registry and replies Stop-kind; and
Start, Audio, or Stop for an id absent from the registry leaves the
registry untouched and yields the "Session not found" error reply instead
of succeeding. -/
theorem session_registry_exclusive (now : Nat) (fresh : String)
    (st : MCPProtocolHandler) (msg : MCPMessage) :
    ((st.sessions.map Prod.fst).Nodup →
        ((handle_message now fresh st msg).1.sessions.map Prod.fst).Nodup) ∧
    (∀ s, msg.type = .stop → (st.sessions.map Prod.fst).Nodup →
      dictGet st.sessions msg.session_id = some s →
        dictGet (handle_message now fresh st msg).1.sessions msg.session_id = none ∧
        (handle_message now fresh st msg).2.type = .stop) ∧
    ((msg.type = .start ∨ msg.type = .audio ∨ msg.type = .stop) →
      dictGet st.sessions msg.session_id = none →
        (handle_message now fresh st msg).1 = st ∧
        (handle_message now fresh st msg).2
          = protocolErrorReply now msg ("Session not found: " ++ msg.session_id)) := by
  obtain ⟨t, sid, seqv, ts, pl⟩ := msg
  refine ⟨?_, ?_, ?_⟩
  · intro h
    cases t with
    | init =>
      cases hf : AudioFormat.validate ((dictGet (pl.getD []) "audio_format").getD (.vdict [])) with
      | error e => simpa [handle_message, dispatch, handleInit, hf] using h
      | ok fmt =>
        cases hc : TranscriptionConfig.validate ((dictGet (pl.getD []) "config").getD (.vdict [])) with
        | error e => simpa [handle_message, dispatch, handleInit, hf, hc] using h
        | ok cfg =>
          simp only [handle_message, dispatch, handleInit, hf, hc,
            MCPSession.create_message]
          exact nodup_dictSet _ _ _ h
    | start =>
      cases hs : dictGet st.sessions sid with
      | none => simpa [handle_message, dispatch, handleStart, hs] using h
      | some s =>
        simp only [handle_message, dispatch, handleStart, hs,
          MCPSession.create_message]
        exact nodup_dictSet _ _ _ h
    | audio =>
      cases hs : dictGet st.sessions sid with
      | none => simpa [handle_message, dispatch, handleAudio, hs] using h
      | some s =>
        cases hdata : dictGet (pl.getD []) "data" with
        | none => simpa [handle_message, dispatch, handleAudio, hs, hdata] using h
        | some v =>
          simp only [handle_message, dispatch, handleAudio, hs, hdata,
            MCPSession.push_audio, MCPSession.create_message]
          exact nodup_dictSet _ _ _ h
    | stop =>
      cases hs : dictGet st.sessions sid with
      | none => simpa [handle_message, dispatch, handleStop, hs] using h
      | some s =>
        simp only [handle_message, dispatch, handleStop, hs,
          MCPSession.close, MCPSession.create_message]
        exact nodup_dictDel _ _ h
    | transcription => simpa [handle_message, dispatch] using h
    | error => simpa [handle_message, dispatch] using h
    | done => simpa [handle_message, dispatch] using h
  · intro s htype hnodup hsome
    cases htype
    refine ⟨?_, ?_⟩
    · simp only [handle_message, dispatch, handleStop, hsome,
        MCPSession.close, MCPSession.create_message]
      exact dictGet_dictDel_self _ _ hnodup
    · simp [handle_message, dispatch, handleStop, hsome,
        MCPSession.close, MCPSession.create_message]
  · intro htype hnone
    rcases htype with h | h | h <;> cases h <;>
      simp [handle_message, dispatch, handleStart, handleAudio, handleStop, hnone]

/-- C3 witness: with one registered session under id "s", a Stop message
for "s" removes it and replies Stop-kind. -/
theorem session_registry_exclusive_witness :
    dictGet (handle_message 3 "f" ⟨[("s", ⟨"s", {}, {}, 0, 0, [], true, [], []⟩)]⟩
        ⟨.stop, "s", 1, 0, none⟩).1.sessions "s" = none ∧
    (handle_message 3 "f" ⟨[("s", ⟨"s", {}, {}, 0, 0, [], true, [], []⟩)]⟩
        ⟨.stop, "s", 1, 0, none⟩).2.type = .stop :=
  (session_registry_exclusive 3 "f" ⟨[("s", ⟨"s", {}, {}, 0, 0, [], true, [], []⟩)]⟩
      ⟨.stop, "s", 1, 0, none⟩).2.1
    ⟨"s", {}, {}, 0, 0, [], true, [], []⟩ rfl (by decide) rfl

/-! ## Claim C9 -/

/-- C9: failed dispatch is atomic: whenever `handle_message` returns an
Error-kind reply, the handler state (the registry together with every
registered session's state) is exactly the state before the call; in
particular an Audio message whose payload lacks the "data" field changes
nothing, and an Init whose config payload fails validation registers
nothing. -/
theorem failed_dispatch_atomic (now : Nat) (fresh : String)
    (st : MCPProtocolHandler) (msg : MCPMessage) :
    ((handle_message now fresh st msg).2.type = .error →
        (handle_message now fresh st msg).1 = st) ∧
    (msg.type = .audio → dictGet (msg.payload.getD []) "data" = none →
        (handle_message now fresh st msg).1 = st) ∧
    (∀ e, msg.type = .init →
      TranscriptionConfig.validate ((dictGet (msg.payload.getD []) "config").getD (.vdict []))
        = .error e →
        (handle_message now fresh st msg).1 = st) := by
  obtain ⟨t, sid, seqv, ts, pl⟩ := msg
  refine ⟨?_, ?_, ?_⟩
  · intro h
    cases t with
    | init =>
      cases hf : AudioFormat.validate ((dictGet (pl.getD []) "audio_format").getD (.vdict [])) with
      | error e => simp [handle_message, dispatch, handleInit, hf]
      | ok fmt =>
        cases hc : TranscriptionConfig.validate ((dictGet (pl.getD []) "config").getD (.vdict [])) with
        | error e => simp [handle_message, dispatch, handleInit, hf, hc]
        | ok cfg =>
          simp [handle_message, dispatch, handleInit, hf, hc,
            MCPSession.create_message] at h
    | start =>
      cases hs : dictGet st.sessions sid with
      | none => simp [handle_message, dispatch, handleStart, hs]
      | some s =>
        simp [handle_message, dispatch, handleStart, hs,
          MCPSession.create_message] at h
    | audio =>
      cases hs : dictGet st.sessions sid with
      | none => simp [handle_message, dispatch, handleAudio, hs]
      | some s =>
        cases hdata : dictGet (pl.getD []) "data" with
        | none => simp [handle_message, dispatch, handleAudio, hs, hdata]
        | some v =>
          simp [handle_message, dispatch, handleAudio, hs, hdata,
            MCPSession.push_audio, MCPSession.create_message] at h
    | stop =>
      cases hs : dictGet st.sessions sid with
      | none => simp [handle_message, dispatch, handleStop, hs]
      | some s =>
        simp [handle_message, dispatch, handleStop, hs,
          MCPSession.close, MCPSession.create_message] at h
    | transcription => simp [handle_message, dispatch]
    | error => simp [handle_message, dispatch]
    | done => simp [handle_message, dispatch]
  · intro ht hdata
    cases ht
    cases hs : dictGet st.sessions sid with
    | none => simp [handle_message, dispatch, handleAudio, hs]
    | some s => simp [handle_message, dispatch, handleAudio, hs, hdata]
  · intro e ht hc
    cases ht
    cases hf : AudioFormat.validate ((dictGet (pl.getD []) "audio_format").getD (.vdict [])) with
    | error e' => simp [handle_message, dispatch, handleInit, hf]
    | ok fmt => simp [handle_message, dispatch, handleInit, hf, hc]

/-- C9 witness: an Audio message without a "data" field, sent for a
registered session, leaves the handler state unchanged. -/
theorem failed_dispatch_atomic_witness :
    (handle_message 3 "f" ⟨[("s", ⟨"s", {}, {}, 0, 0, [], true, [], []⟩)]⟩
        ⟨.audio, "s", 1, 0, none⟩).1
      = ⟨[("s", ⟨"s", {}, {}, 0, 0, [], true, [], []⟩)]⟩ :=
  (failed_dispatch_atomic 3 "f" ⟨[("s", ⟨"s", {}, {}, 0, 0, [], true, [], []⟩)]⟩
      ⟨.audio, "s", 1, 0, none⟩).2.1 rfl rfl

/-! ## Claim C4 -/

/-- C4 counterexample: a session whose configured `max_context_length` is
`0` (a falsy value, so the trimming branch is skipped) retains the appended
string, leaving the total token count `1`, strictly above the configured
limit `0`. -/
theorem update_context_zero_limit_overflows :
    updateContextBuffer ⟨"scribe_v1", none, some 0, true, true⟩ [] "hello" = ["hello"] ∧
    ¬ totalTokens (updateContextBuffer ⟨"scribe_v1", none, some 0, true, true⟩ [] "hello") ≤ 0 :=
  ⟨rfl, by decide⟩

/-- C4 (amended): for every session whose configured `max_context_length`
is a nonzero value `m` (the truthiness condition the code tests), every
`update_context` call leaves the total token count of the context buffer at
most `m`, and trimming removes only whole entries strictly oldest-first:
the resulting buffer is a suffix (`List.drop k`) of the appended buffer. -/
theorem update_context_bounded (config : TranscriptionConfig) (m : Nat)
    (buf : List String) (text : String)
    (hm : config.max_context_length = some m) (h0 : m ≠ 0) :
    totalTokens (updateContextBuffer config buf text) ≤ m ∧
    ∃ k, updateContextBuffer config buf text = List.drop k (buf ++ [text]) := by
  obtain ⟨m', rfl⟩ : ∃ m', m = m' + 1 := by
    cases m with
    | zero => exact absurd rfl h0
    | succ m' => exact ⟨m', rfl⟩
  simp only [updateContextBuffer, hm]
  exact ⟨trimContext_totalTokens_le _ _, trimContext_drop _ _⟩

/-- C4 witness: a concrete instantiation of `update_context_bounded` at
limit 3 with buffer `["a b", "c d"]` and appended text `"e f"`. -/
theorem update_context_bounded_witness :
    totalTokens (updateContextBuffer ⟨"scribe_v1", none, some 3, true, true⟩ ["a b", "c d"] "e f") ≤ 3 ∧
    ∃ k, updateContextBuffer ⟨"scribe_v1", none, some 3, true, true⟩ ["a b", "c d"] "e f"
      = List.drop k (["a b", "c d"] ++ ["e f"]) :=
  update_context_bounded _ 3 _ _ rfl (by decide)

/-! ## Claim C8 -/

/-- C8 counterexample: an Init message whose payload's "config" entry is
the string "hi" does not succeed: `TranscriptionConfig(**"hi")` raises (the
argument is not a mapping), so the reply is Error-kind rather than an Init
"ready" reply, and nothing is registered. -/
theorem init_with_bad_config_fails :
    (handle_message 3 "f" ⟨[]⟩ ⟨.init, "s", 0, 0, some [("config", .vstr "hi")]⟩).2.type
      = .error ∧
    (handle_message 3 "f" ⟨[]⟩ ⟨.init, "s", 0, 0, some [("config", .vstr "hi")]⟩).1.sessions
      = [] :=
  ⟨rfl, rfl⟩

/-- C8 (amended): handling an Init message whose session id is non-falsy
and whose payload's audio_format and config entries (defaulting to `{}`
when absent) validate succeeds: it constructs a new Session with the
validated configuration (fresh sequence counter, empty context, empty
queues), registers it under the message's session id replacing any
previously registered session of that id without merging state, and
replies with an Init-kind message of sequence 0 whose payload is
`{status: "ready"}`. -/
theorem handle_init_registers (now : Nat) (fresh : String)
    (st : MCPProtocolHandler) (msg : MCPMessage)
    (fmt : AudioFormat) (cfg : TranscriptionConfig)
    (ht : msg.type = .init) (hid : msg.session_id ≠ "")
    (hf : AudioFormat.validate
      ((dictGet (msg.payload.getD []) "audio_format").getD (.vdict [])) = .ok fmt)
    (hc : TranscriptionConfig.validate
      ((dictGet (msg.payload.getD []) "config").getD (.vdict [])) = .ok cfg) :
    handle_message now fresh st msg
      = (⟨dictSet st.sessions msg.session_id
            ⟨msg.session_id, fmt, cfg, 1, now, [], true, [], []⟩⟩,
         ⟨.init, msg.session_id, 0, 0, some [("status", .vstr "ready")]⟩) := by
  obtain ⟨t, sid, seqv, ts, pl⟩ := msg
  cases ht
  simp only at hf hc hid
  simp [handle_message, dispatch, handleInit, hf, hc, MCPSession.make,
    if_neg hid, MCPSession.create_message]

/-- C8 witness: an Init with no payload on an empty registry registers a
default-configured session under "s" and replies ready. -/
theorem handle_init_registers_witness :
    handle_message 4 "f" ⟨[]⟩ ⟨.init, "s", 5, 9, none⟩
      = (⟨dictSet ([] : List (String × MCPSession)) "s" ⟨"s", {}, {}, 1, 4, [], true, [], []⟩⟩,
         ⟨.init, "s", 0, 0, some [("status", .vstr "ready")]⟩) :=
  handle_init_registers 4 "f" ⟨[]⟩ ⟨.init, "s", 5, 9, none⟩ {} {} rfl (by decide) rfl rfl

/-! ## Claim C6 -/

theorem process_stream_characterization
    (convert : List Nat → Except String (List Nat))
    (transcribe : List Nat → Except String TranscriptionResult)
    (config : TranscriptionConfig) :
    ∀ (chunks : List (List Nat)) (ctx : List String),
      process_stream convert transcribe config chunks ctx
        = ((chunks.filterMap fun c =>
              if c = [] then none else chunkOutcome convert transcribe c).foldl
             (fun b r => if r.text ≠ "" then updateContextBuffer config b r.text else b) ctx,
           chunks.filterMap fun c =>
              if c = [] then none else chunkOutcome convert transcribe c) := by
  intro chunks
  induction chunks with
  | nil => intro ctx; rfl
  | cons chunk rest ih =>
    intro ctx
    by_cases hz : chunk = []
    · simp [process_stream, hz, ih]
    · cases hcv : convert chunk with
      | error e => simp [process_stream, hz, hcv, chunkOutcome, ih]
      | ok wav =>
        cases htr : transcribe wav with
        | error e => simp [process_stream, hz, hcv, htr, chunkOutcome, ih]
        | ok result => simp [process_stream, hz, hcv, htr, chunkOutcome, ih]

/-- C6: the per-chunk loop survives conversion and provider failures: the
yielded results are exactly the outcomes of the non-empty chunks whose
convert-and-transcribe round trip succeeds (so a failure at chunk k never
prevents chunk k+1 from being processed), the final context is the fold of
`update_context` over the successful results with non-empty text, and a
failing chunk is skipped with the rest of the stream processed unchanged. -/
theorem pipeline_survives_chunk_failures
    (convert : List Nat → Except String (List Nat))
    (transcribe : List Nat → Except String TranscriptionResult)
    (config : TranscriptionConfig) :
    (∀ (chunks : List (List Nat)) (ctx : List String),
      (process_stream convert transcribe config chunks ctx).2
        = chunks.filterMap fun c =>
            if c = [] then none else chunkOutcome convert transcribe c) ∧
    (∀ (chunks : List (List Nat)) (ctx : List String),
      (process_stream convert transcribe config chunks ctx).1
        = (chunks.filterMap fun c =>
             if c = [] then none else chunkOutcome convert transcribe c).foldl
            (fun b r => if r.text ≠ "" then updateContextBuffer config b r.text else b) ctx) ∧
    (∀ (chunk : List Nat) (rest : List (List Nat)) (ctx : List String),
      chunkOutcome convert transcribe chunk = none →
        process_stream convert transcribe config (chunk :: rest) ctx
          = process_stream convert transcribe config rest ctx) := by
  refine ⟨?_, ?_, ?_⟩
  · intro chunks ctx
    rw [process_stream_characterization convert transcribe config chunks ctx]
  · intro chunks ctx
    rw [process_stream_characterization convert transcribe config chunks ctx]
  · intro chunk rest ctx hout
    by_cases hz : chunk = []
    · simp [process_stream, hz]
    · cases hcv : convert chunk with
      | error e => simp [process_stream, hz, hcv]
      | ok wav =>
        cases htr : transcribe wav with
        | error e => simp [process_stream, hz, hcv, htr]
        | ok result => simp [chunkOutcome, hcv, htr] at hout

/-- C6 witness: with a converter that fails on chunk `[0]` and succeeds on
others, processing `[[0], [1]]` skips the bad chunk and still transcribes
`[1]`. -/
theorem pipeline_survives_chunk_failures_witness :
    process_stream (fun c => if c = [0] then .error "bad" else .ok c)
        (fun _ => .ok ⟨"hi", none, none, []⟩) {} [[0], [1]] []
      = process_stream (fun c => if c = [0] then .error "bad" else .ok c)
        (fun _ => .ok ⟨"hi", none, none, []⟩) {} [[1]] [] :=
  (pipeline_survives_chunk_failures _ _ {}).2.2 [0] [[1]] [] rfl

/-! ## Claim C7 -/

/-- C7: `start_session` is exclusive per session id: when a task is
already registered for the id the call fails with "Session already
running" and changes nothing; and after a first successful call for an
unregistered id, the second call for the same id fails, leaves the service
state unchanged, and the task spawned by the first call remains the
registered task for that id. -/
theorem start_session_exclusive (svc : ElevenLabsTranscriptionService) (sid : String) :
    (∀ t, dictGet svc.tasks sid = some t →
        start_session svc sid = (svc, .error ("Session already running: " ++ sid))) ∧
    (dictGet svc.tasks sid = none →
        (start_session svc sid).2 = .ok () ∧
        dictGet (start_session svc sid).1.tasks sid = some svc.next_task ∧
        (start_session (start_session svc sid).1 sid).2
          = .error ("Session already running: " ++ sid) ∧
        (start_session (start_session svc sid).1 sid).1 = (start_session svc sid).1 ∧
        dictGet (start_session (start_session svc sid).1 sid).1.tasks sid
          = some svc.next_task) := by
  constructor
  · intro t ht
    simp [start_session, ht]
  · intro hn
    have h1 : start_session svc sid
        = (⟨dictSet svc.tasks sid svc.next_task, svc.next_task + 1⟩, .ok ()) := by
      simp [start_session, hn]
    have hget : dictGet (dictSet svc.tasks sid svc.next_task) sid = some svc.next_task :=
      dictGet_dictSet_self _ _ _
    rw [h1]
    simp [start_session, hget]

/-- C7 witness: starting session "a" twice on a fresh service: the first
call registers task 0, the second fails and task 0 stays registered. -/
theorem start_session_exclusive_witness :
    (start_session (⟨[], 0⟩ : ElevenLabsTranscriptionService) "a").2 = .ok () ∧
    dictGet (start_session (⟨[], 0⟩ : ElevenLabsTranscriptionService) "a").1.tasks "a" = some 0 ∧
    (start_session (start_session (⟨[], 0⟩ : ElevenLabsTranscriptionService) "a").1 "a").2
      = .error ("Session already running: " ++ "a") ∧
    (start_session (start_session (⟨[], 0⟩ : ElevenLabsTranscriptionService) "a").1 "a").1
      = (start_session (⟨[], 0⟩ : ElevenLabsTranscriptionService) "a").1 ∧
    dictGet (start_session (start_session (⟨[], 0⟩ : ElevenLabsTranscriptionService) "a").1 "a").1.tasks "a"
      = some 0 :=
  (start_session_exclusive ⟨[], 0⟩ "a").2 rfl

/-! ## Claim C5 -/

theorem gSteps_stuck_invariant :
    ∀ c, GSteps gStuck c →
      c.consumer = ConsumerState.waiting 0 ∧ c.audio_qid ≠ 0 ∧
      c.qstore 0 = [] ∧ c.next_qid ≠ 0 ∧ c.yielded = [] := by
  intro c h
  induction h with
  | refl => exact ⟨rfl, by decide, rfl, by decide, rfl⟩
  | tail b c hab hbc ih =>
    cases hbc with
    | check_inactive h1 h2 =>
      rw [ih.1] at h1
      exact absurd h1 (by decide)
    | enter_get h1 h2 =>
      rw [ih.1] at h1
      exact absurd h1 (by decide)
    | resume_get q v rest h1 h2 =>
      rw [ih.1] at h1
      cases h1
      rw [ih.2.2.1] at h2
      exact absurd h2 (by simp)
    | push v =>
      refine ⟨ih.1, ih.2.1, ?_, ih.2.2.2.1, ih.2.2.2.2⟩
      simp only
      rw [if_neg fun h => ih.2.1 h.symm]
      exact ih.2.2.1
    | close_session =>
      exact ⟨ih.1, ih.2.2.2.1, ih.2.2.1, Nat.succ_ne_zero _, ih.2.2.2.2⟩

/-- C5, evaluated at the failing input: `close()` does clear the active
flag and replace both queues with fresh empty ones, and the system reaches
the configuration `gStuck` (a consumer suspended in `get()` on the old
queue object, then `close()`); but from `gStuck` no finite run of the
system ever terminates the suspended consumer or yields it another item —
contrary to the claim that every consumer, including one already suspended
waiting for an item, observes termination. -/
theorem close_leaves_suspended_consumer_stuck :
    (∀ s : MCPSession, s.close.is_active = false ∧
        s.close.audio_queue = [] ∧ s.close.result_queue = []) ∧
    GSteps gInit gStuck ∧
    (∀ c, GSteps gStuck c → c.consumer ≠ ConsumerState.done ∧ c.yielded = []) := by
  refine ⟨fun s => ⟨rfl, rfl, rfl⟩, ?_, ?_⟩
  · have s1 : GStep gInit { gInit with consumer := .waiting 0 } :=
      GStep.enter_get gInit rfl rfl
    have s2 : GStep { gInit with consumer := .waiting 0 } gStuck :=
      GStep.close_session { gInit with consumer := .waiting 0 }
    exact GSteps.tail _ _ _ (GSteps.tail _ _ _ (GSteps.refl _) s1) s2
  · intro c h
    have inv := gSteps_stuck_invariant c h
    refine ⟨?_, inv.2.2.2.2⟩
    rw [inv.1]
    decide

/-- C5 witness: at the stuck configuration itself (a zero-step run), the
suspended consumer has not terminated and has yielded nothing. -/
theorem close_leaves_suspended_consumer_stuck_witness :
    gStuck.consumer ≠ ConsumerState.done ∧ gStuck.yielded = [] :=
  close_leaves_suspended_consumer_stuck.2.2 gStuck (GSteps.refl gStuck)

/-! ## Claim C10 -/

/-- C10: for every session whose configured `max_context_length` is a
nonzero value `m`, appending a string whose own token count exceeds `m`
removes every buffered entry including that string itself: the buffer is
left empty. -/
theorem update_context_oversized_entry_removed (config : TranscriptionConfig)
    (m : Nat) (buf : List String) (text : String)
    (hm : config.max_context_length = some m) (h0 : m ≠ 0)
    (hbig : m < tokenCount text) :
    updateContextBuffer config buf text = [] := by
  obtain ⟨m', rfl⟩ : ∃ m', m = m' + 1 := by
    cases m with
    | zero => exact absurd rfl h0
    | succ m' => exact ⟨m', rfl⟩
  simp only [updateContextBuffer, hm]
  exact trimContext_oversized _ _ hbig _

/-- C10 witness: with limit 2, appending the 3-token string `"a b c"` to
the singleton buffer `["x"]` empties the buffer. -/
theorem update_context_oversized_entry_removed_witness :
    updateContextBuffer ⟨"scribe_v1", none, some 2, true, true⟩ ["x"] "a b c" = [] :=
  update_context_oversized_entry_removed _ 2 _ _ rfl (by decide) (by decide)

end Scribe
